import Mathlib

/-!
Verification of the batlab battery test harness (C implementation).

The definitions below are a shallow embedding of the C sources:
`analysis.c` (run loading, validity filtering, statistics),
`telemetry.c` (battery source readers, sampling), and the command layer
of `batlab.c`. C `double` values are modelled as `ℚ`; C strings as
`String` (a list of characters); fallible C functions returning `-1`/`0`
with out parameters are modelled as `Option`-valued functions whose
arguments make the external inputs (command output, file and sysfs
contents) explicit.
-/

set_option maxRecDepth 4000

namespace Batlab

/-! ### C string helpers -/

/-- Suffix of `hay` just after the first occurrence of `pat`, or `none`
when `pat` does not occur; models `strstr(hay, pat)` advanced past the
pattern, as the JSON field parsers use it. -/
def dropAfterSubstr (pat : List Char) : List Char → Option (List Char)
  | [] => if pat.isPrefixOf ([] : List Char) then some [] else none
  | c :: t =>
    if pat.isPrefixOf (c :: t) then some ((c :: t).drop pat.length)
    else dropAfterSubstr pat t

/-- Substring test, modelling C `strstr(hay, needle) != NULL`. -/
def strstrB (hay needle : String) : Bool :=
  (dropAfterSubstr needle.data hay.data).isSome

/-- Drop leading spaces and tabs, modelling the
`while (*line == ' ' || *line == '\t') line++;` trimming loop. -/
def ltrim (s : String) : String :=
  String.mk (s.data.dropWhile (fun c => c = ' ' || c = '\t'))

/-- Text after the first `:` of a line, with leading spaces and tabs then
skipped, modelling `strchr(line, ':') + 1` followed by the whitespace
skip. Meaningful only when the line contains a colon. -/
def afterColon (s : String) : String :=
  String.mk (((s.data.dropWhile (fun c => c ≠ ':')).drop 1).dropWhile
    (fun c => c = ' ' || c = '\t'))

/-- Numeric value of a list of decimal digits. -/
def digitsVal (ds : List Char) : ℕ :=
  ds.foldl (fun a c => 10 * a + (c.toNat - 48)) 0

/-- Model of the C library `strtod` on the plain decimal forms
(`[+-]digits[.digits]`) that occur in this program's inputs: leading
whitespace is skipped and parsing stops at the first character that does
not continue a number, yielding `0` when no digits are found. Exponent
and hexadecimal forms are not produced by any modelled source and are
out of scope. -/
def strtodQ (s : String) : ℚ :=
  let cs := s.data.dropWhile (fun c => c = ' ' || c = '\t' || c = '\n' || c = '\r')
  let signed : Bool × List Char :=
    match cs with
    | '-' :: r => (true, r)
    | '+' :: r => (false, r)
    | r => (false, r)
  let ip := signed.2.takeWhile Char.isDigit
  let rest := signed.2.dropWhile Char.isDigit
  let fp : List Char :=
    match rest with
    | '.' :: r => r.takeWhile Char.isDigit
    | _ => []
  if ip.isEmpty && fp.isEmpty then 0
  else
    let mag : ℚ := (digitsVal ip : ℚ) + (digitsVal fp : ℚ) / ((10 : ℚ) ^ fp.length)
    if signed.1 then -mag else mag

/-- Model of `parse_double` in `telemetry.c`: skip blanks, then `strtod`.
The `isnan` guard has no counterpart in `ℚ`, where no NaN exists. -/
def parse_double (s : String) : ℚ := strtodQ s

/-! ### Data model (`telemetry.h`) -/

/-- Model of `telemetry_sample_t`. -/
structure telemetry_sample where
  timestamp : String
  percentage : ℚ
  watts : ℚ
  cpu_load : ℚ
  ram_pct : ℚ
  temp_c : ℚ
  source : String
deriving DecidableEq, Inhabited

/-- Model of `run_summary_t`. Like the C struct, it carries no
low-confidence marker of any kind: these sixteen fields are all the
information a summary has. -/
structure run_summary where
  run_id : String
  config : String
  os : String
  workload : String
  duration_s : ℚ
  samples_total : ℤ
  samples_valid : ℤ
  avg_watts : ℚ
  median_watts : ℚ
  p95_watts : ℚ
  avg_cpu_load : ℚ
  avg_ram_pct : ℚ
  avg_temp_c : ℚ
  pct_drop : ℚ
  start_pct : ℚ
  end_pct : ℚ
deriving DecidableEq, Inhabited

/-! ### Analysis layer (`analysis.c`) -/

/-- Validity filter of `analyze_run` (analysis.c:173-174): battery
percentage within `[0, 100]` and watts within `[0, 100)`. -/
def sampleValid (s : telemetry_sample) : Bool :=
  decide (0 ≤ s.percentage) && decide (s.percentage ≤ 100) &&
    decide (0 ≤ s.watts) && decide (s.watts < 100)

/-- The in-place compaction loop of `analyze_run` (analysis.c:171-180)
keeps, in order, exactly the samples passing `sampleValid`. -/
def validSamples (samples : List telemetry_sample) : List telemetry_sample :=
  samples.filter sampleValid

/-- Model of `percentile` (analysis.c:239-258). -/
def percentile (sorted_data : List ℚ) (p : ℚ) : ℚ :=
  if sorted_data.length = 0 then 0
  else if sorted_data.length = 1 then sorted_data.getD 0 0
  else
    let index : ℚ := p * ((sorted_data.length : ℚ) - 1)
    let lower_index : ℤ := ⌊index⌋
    let upper_index : ℤ := ⌈index⌉
    if lower_index = upper_index then sorted_data.getD lower_index.toNat 0
    else
      let weight : ℚ := index - (lower_index : ℚ)
      sorted_data.getD lower_index.toNat 0 * (1 - weight) +
        sorted_data.getD upper_index.toNat 0 * weight

/-- Model of `calculate_duration` (analysis.c:450-458): the duration is
estimated purely from the sample count at an assumed cadence of one
sample per minute; the `samples` array's timestamps are never read. -/
def calculate_duration (samples : List telemetry_sample) : ℚ :=
  if samples.length < 2 then 0 else (samples.length : ℚ) * 60

/-- Statistical core of `analyze_run` (analysis.c:120-236), from the
sample-count check through summary construction, as a function of the
parsed samples. Run-identity extraction from the file name and the
metadata sidecar (analysis.c:99-168) concerns only the string-labels and
is modelled by empty labels. `min_samples` is the C `int` argument. -/
def analyze_samples (samples : List telemetry_sample) (min_samples : ℤ) :
    Option run_summary :=
  if (samples.length : ℤ) < min_samples then none
  else
    let valid := validSamples samples
    if (valid.length : ℤ) < min_samples then none
    else
      let watts_values := List.insertionSort (fun a b : ℚ => a ≤ b)
        (valid.map (fun s => s.watts))
      let start_pct : ℚ :=
        if 2 ≤ valid.length then ((valid.headD default).percentage) else 0
      let end_pct : ℚ :=
        if 2 ≤ valid.length then ((valid.getLastD default).percentage) else 0
      some
        { run_id := "", config := "", os := "", workload := ""
          duration_s := calculate_duration valid
          samples_total := (samples.length : ℤ)
          samples_valid := (valid.length : ℤ)
          avg_watts := (valid.map (fun s => s.watts)).sum / (valid.length : ℚ)
          median_watts := percentile watts_values (1 / 2)
          p95_watts := percentile watts_values (95 / 100)
          avg_cpu_load := (valid.map (fun s => s.cpu_load)).sum / (valid.length : ℚ)
          avg_ram_pct := (valid.map (fun s => s.ram_pct)).sum / (valid.length : ℚ)
          avg_temp_c := (valid.map (fun s => s.temp_c)).sum / (valid.length : ℚ)
          start_pct := start_pct
          end_pct := end_pct
          pct_drop := if 2 ≤ valid.length ∧ end_pct < start_pct
            then start_pct - end_pct else 0 }

/-- Model of `parse_json_double` (analysis.c:336-357): find `"key":`,
skip spaces and tabs, and apply `strtod`; missing keys give `0.0`. -/
def parse_json_double (json key : String) : ℚ :=
  match dropAfterSubstr ("\"" ++ key ++ "\":").data json.data with
  | none => 0
  | some rest =>
    strtodQ (String.mk (rest.dropWhile (fun c => c = ' ' || c = '\t')))

/-- Model of `parse_json_string` (analysis.c:359-402): find `"key":`,
skip spaces and tabs, and copy a double-quoted value; any failure leaves
the caller's buffer as the empty string. Truncation of values longer
than the caller's buffer does not occur for any modelled input and is
not modelled. -/
def parse_json_string (json key : String) : String :=
  match dropAfterSubstr ("\"" ++ key ++ "\":").data json.data with
  | none => ""
  | some rest =>
    match rest.dropWhile (fun c => c = ' ' || c = '\t') with
    | '"' :: r =>
      if r.contains '"' then String.mk (r.takeWhile (fun c => c ≠ '"')) else ""
    | _ => ""

/-- Model of `parse_json_line` (analysis.c:311-334). For every line the
C function fills the sample from whatever fields it finds (absent
numeric fields default to `0.0`, absent strings to `""`) and returns
success: its `-1` branch fires only on NULL pointers, which have no
counterpart here, so the result is the sample itself. -/
def parse_json_line (line : String) : telemetry_sample :=
  { timestamp := parse_json_string line "t"
    percentage := parse_json_double line "pct"
    watts := parse_json_double line "watts"
    cpu_load := parse_json_double line "cpu_load"
    ram_pct := parse_json_double line "ram_pct"
    temp_c := parse_json_double line "temp_c"
    source := parse_json_string line "src" }

/-- Model of `parse_jsonl_file` (analysis.c:260-309) on the file's lines
as `fgets` returns them (trailing newline included): lines of length at
most 1 are skipped, every other line is parsed, and the function fails
only when no line was parsed. -/
def parse_jsonl_file (lines : List String) : Option (List telemetry_sample) :=
  let parsed := (lines.filter (fun l => 1 < l.length)).map parse_json_line
  if parsed.length = 0 then none else some parsed

/-- Model of `analyze_run` (analysis.c:91-237) on the log file's lines:
parse, then run the statistical core. -/
def analyze_run (lines : List String) (min_samples : ℤ) : Option run_summary :=
  match parse_jsonl_file lines with
  | none => none
  | some samples => analyze_samples samples min_samples

/-! ### Telemetry acquisition layer (`telemetry.c`) -/

/-- Contents of the battery files a Linux sysfs battery node may expose;
`none` models a file whose `read_file_line` fails (absent node). -/
structure sysfs_battery where
  status : Option String
  capacity : Option String
  power_now : Option String
  current_now : Option String
  voltage_now : Option String
deriving DecidableEq

/-- A sysfs node with no readable files. -/
def emptySysfs : sysfs_battery :=
  { status := none, capacity := none, power_now := none
    current_now := none, voltage_now := none }

/-- Charging-or-full test of the Linux sysfs fallback
(telemetry.c:458-466): `BAT0/status` is consulted first and `BAT1/status`
only when reading `BAT0/status` failed. -/
def sysfs_status_charging (bat0 bat1 : sysfs_battery) : Bool :=
  match bat0.status with
  | some b => strstrB b "Charging" || strstrB b "Full"
  | none =>
    match bat1.status with
    | some b => strstrB b "Charging" || strstrB b "Full"
    | none => false

/-- Linux sysfs fallback of `get_battery_info_linux`
(telemetry.c:453-505): `-1` sentinels track unread values exactly as in
the C code, and a result is produced only when a capacity was read. -/
def sysfs_fallback (bat0 bat1 : sysfs_battery) : Option (ℚ × ℚ × String) :=
  if sysfs_status_charging bat0 bat1 then none
  else
    let capacity0 : ℚ :=
      match bat0.capacity with
      | some s => parse_double s
      | none => -1
    let power0 : ℚ :=
      match bat0.power_now with
      | some s => parse_double s / 1000000
      | none =>
        match bat0.current_now, bat0.voltage_now with
        | some c, some v => (parse_double c / 1000000) * (parse_double v / 1000000)
        | _, _ => -1
    let capacity : ℚ :=
      if capacity0 < 0 then
        match bat1.capacity with
        | some s => parse_double s
        | none => capacity0
      else capacity0
    let power_now : ℚ :=
      if power0 < 0 then
        match bat1.power_now with
        | some s => parse_double s / 1000000
        | none =>
          match bat1.current_now, bat1.voltage_now with
          | some c, some v => (parse_double c / 1000000) * (parse_double v / 1000000)
          | _, _ => power0
      else power0
    if 0 ≤ capacity then
      some (capacity, if 0 < power_now then power_now else 0, "sysfs")
    else none

/-- The upower-output scanning loop of `get_battery_info_linux`
(telemetry.c:420-440): one pass over the (already trimmed) lines,
overwriting `pct` and `rate` at each matching line and latching
`is_charging` on any line containing both `state` and `charging`. -/
def upower_scan : List String → ℚ → ℚ → Bool → ℚ × ℚ × Bool
  | [], pct, rate, is_charging => (pct, rate, is_charging)
  | l :: ls, pct, rate, is_charging =>
    if strstrB l "percentage" && l.data.contains ':' then
      upower_scan ls (parse_double (afterColon l)) rate is_charging
    else if strstrB l "energy-rate" && l.data.contains ':' then
      upower_scan ls pct (parse_double (afterColon l)) is_charging
    else if strstrB l "state" && strstrB l "charging" then
      upower_scan ls pct rate true
    else upower_scan ls pct rate is_charging

/-- Model of `get_battery_info_linux` (telemetry.c:413-506). The first
argument is the upower invocation's output split at newlines, `none`
when the command failed; the sysfs arguments model the two battery
nodes. On a charging state the function returns `-1` at once — without
consulting the sysfs fallback. -/
def get_battery_info_linux (upower : Option (List String))
    (bat0 bat1 : sysfs_battery) : Option (ℚ × ℚ × String) :=
  match upower with
  | some lines =>
    let scan := upower_scan (lines.map ltrim) (-1) (-1) false
    if scan.2.2 then none
    else if 0 ≤ scan.1 then
      some (scan.1, if 0 < scan.2.1 then scan.2.1 else 0, "upower")
    else sysfs_fallback bat0 bat1
  | none => sysfs_fallback bat0 bat1

/-- The acpiconf-output scanning loop of `get_battery_info_freebsd`
(telemetry.c:302-326): lines are visited in order and a line containing
`State:` and `charging` aborts the whole reader with `-1` (modelled as
`none`) on the spot. -/
def acpiconf_scan : List String → ℚ → ℚ → Option (ℚ × ℚ)
  | [], pct, rate => some (pct, rate)
  | l :: ls, pct, rate =>
    if strstrB l "Remaining capacity:" then
      acpiconf_scan ls
        (if l.data.contains ':' then parse_double (afterColon l) else pct) rate
    else if strstrB l "Present rate:" then
      acpiconf_scan ls pct
        (if l.data.contains ':' then parse_double (afterColon l) / 1000 else rate)
    else if strstrB l "State:" && strstrB l "charging" then none
    else acpiconf_scan ls pct rate

/-- FreeBSD sysctl fallback of `get_battery_info_freebsd`
(telemetry.c:335-354): `hw.acpi.battery.life` and `.rate` as integer
sysctls, `none` for a failing `sysctlbyname`. -/
def sysctl_fallback (life rate : Option ℤ) : Option (ℚ × ℚ × String) :=
  match life with
  | some l =>
    if 0 ≤ l then
      some ((l : ℚ),
        (match rate with
         | some r => if 0 ≤ r then (r : ℚ) / 1000 else 0
         | none => 0), "sysctl")
    else none
  | none => none

/-- Model of `get_battery_info_freebsd` (telemetry.c:295-355). A
charging `State:` line makes the whole reader return `-1` without
consulting the sysctl fallback. -/
def get_battery_info_freebsd (acpiconf : Option (List String))
    (life rate : Option ℤ) : Option (ℚ × ℚ × String) :=
  match acpiconf with
  | some lines =>
    match acpiconf_scan lines (-1) (-1) with
    | none => none
    | some pr =>
      if 0 ≤ pr.1 then
        some (pr.1, if 0 < pr.2 then pr.2 else 0, "acpiconf")
      else sysctl_fallback life rate
  | none => sysctl_fallback life rate

/-- Model of `collect_telemetry` (telemetry.c:243-266) with the battery
resolver's result and the system-metrics result passed in explicitly:
a failed `get_battery_info` fails the whole tick (no sample at all),
while failed system metrics are replaced by zero defaults. -/
def collect_telemetry (ts : String) (battery : Option (ℚ × ℚ × String))
    (metrics : Option (ℚ × ℚ × ℚ)) : Option telemetry_sample :=
  match battery with
  | none => none
  | some b =>
    let m := metrics.getD (0, 0, 0)
    some
      { timestamp := ts, percentage := b.1, watts := b.2.1
        cpu_load := m.1, ram_pct := m.2.1, temp_c := m.2.2
        source := b.2.2 }

/-- Mutable state of the `cmd_log` sampling loop (batlab.c:332-368):
the samples written to the log so far and the two counters. -/
structure log_state where
  written : List telemetry_sample
  sample_count : ℕ
  error_count : ℕ
deriving DecidableEq

/-- One iteration of the `cmd_log` sampling loop (batlab.c:341-368):
on success the sample is appended to the log file; on failure nothing is
written, the error counter is bumped, and the loop breaks only when more
than 10 errors accumulated before the first successful sample. The
returned flag is that break decision. -/
def cmd_log_tick (st : log_state) (ts : String)
    (battery : Option (ℚ × ℚ × String)) (metrics : Option (ℚ × ℚ × ℚ)) :
    log_state × Bool :=
  match collect_telemetry ts battery metrics with
  | some s =>
    ({ written := st.written ++ [s], sample_count := st.sample_count + 1
       error_count := st.error_count }, false)
  | none =>
    ({ written := st.written, sample_count := st.sample_count
       error_count := st.error_count + 1 },
     decide (10 < st.error_count + 1) && decide (st.sample_count = 0))

/-- Model of `wait_for_battery_ready` (telemetry.c:776-790): whatever
`get_battery_info` returned, the function prints the same ready message
and returns `0`. -/
def wait_for_battery_ready (battery : Option (ℚ × ℚ × String)) : ℤ :=
  match battery with
  | some _ => 0
  | none => 0

/-! ### Command layer (`batlab.c`) -/

/-- Exit status of `cmd_report` (batlab.c:550-597) as a function of the
`load_run_summaries` outcome (`none` models its `-1` failure return):
a failed load exits `1`; an empty summary list prints an error message
but exits `0`; a non-empty list prints the table and exits `0`. -/
def cmd_report_exit (load : Option (List run_summary)) : ℤ :=
  match load with
  | none => 1
  | some summaries => if summaries.length = 0 then 0 else 0

/-! ### Specification-side definitions

These follow the specification's words, independently of the code, and
are compared against the embedded code above. -/

/-- Validity of a sample in the specification's words: battery
percentage in `[0, 100]` and watts in `[0, 100)`. -/
def specValidSample (s : telemetry_sample) : Prop :=
  0 ≤ s.percentage ∧ s.percentage ≤ 100 ∧ 0 ≤ s.watts ∧ s.watts < 100

instance (s : telemetry_sample) : Decidable (specValidSample s) := by
  unfold specValidSample
  exact inferInstance

/-- Seconds since midnight encoded in an ISO-8601 timestamp
`YYYY-MM-DDTHH:MM:SS...`, read from the fixed character positions. -/
def timeOfDaySeconds (ts : String) : ℚ :=
  (digitsVal ((ts.data.drop 11).take 2) : ℚ) * 3600 +
    (digitsVal ((ts.data.drop 14).take 2) : ℚ) * 60 +
    (digitsVal ((ts.data.drop 17).take 2) : ℚ)

/-- Wall-clock span in seconds between a run's first and last sample
timestamps (same-day timestamps), which the specification says the
summary's duration reports when timestamps are present. -/
def specWallClockSpan (samples : List telemetry_sample) : ℚ :=
  match samples with
  | [] => 0
  | s :: _ =>
    timeOfDaySeconds (samples.getLastD s).timestamp -
      timeOfDaySeconds s.timestamp

/-- A trimmed upower output line on which the Linux reader's scanning
loop reports a charging state: it reaches the `state`/`charging` branch,
so it contains both substrings and matches neither of the two earlier
`percentage`/`energy-rate` branches. -/
def upowerChargingLine (l : String) : Prop :=
  strstrB l "state" = true ∧ strstrB l "charging" = true ∧
    ¬(strstrB l "percentage" = true ∧ l.data.contains ':' = true) ∧
    ¬(strstrB l "energy-rate" = true ∧ l.data.contains ':' = true)

/-- An acpiconf output line on which the FreeBSD reader's scanning loop
reports a charging state: it reaches the `State:`/`charging` branch, so
it contains both substrings and matches neither of the two earlier
capacity/rate branches. -/
def acpiChargingLine (l : String) : Prop :=
  strstrB l "State:" = true ∧ strstrB l "charging" = true ∧
    strstrB l "Remaining capacity:" = false ∧
    strstrB l "Present rate:" = false

/-! ### Concrete inputs used by the claims -/

/-- A sample of an ordinary discharge log. -/
def mkSample (ts : String) (pct w : ℚ) : telemetry_sample :=
  { timestamp := ts, percentage := pct, watts := w
    cpu_load := 1/10, ram_pct := 40, temp_c := 35, source := "upower" }

/-- The ten-sample run of the claim: watts 5 nine times, then one 200-W
reading, all percentages in range. -/
def ex10 : List telemetry_sample :=
  (List.replicate 9 (mkSample "2025-01-01T00:00:00Z" 50 5)) ++
    [mkSample "2025-01-01T00:09:00Z" 50 200]

/-- A run with exactly 3 valid samples. -/
def ex3 : List telemetry_sample :=
  [mkSample "2025-01-01T00:00:00Z" 90 6,
   mkSample "2025-01-01T00:01:00Z" 85 6,
   mkSample "2025-01-01T00:02:00Z" 80 6]

/-- Three valid samples whose timestamps span 120 seconds of wall-clock
time. -/
def exTs : List telemetry_sample :=
  [mkSample "2025-01-01T00:00:00.000000000Z" 90 5,
   mkSample "2025-01-01T00:01:00.000000000Z" 85 5,
   mkSample "2025-01-01T00:02:00.000000000Z" 80 5]

/-- A ten-sample run with 4 valid samples and 6 invalid ones (watts 200
is outside `[0, 100)`). -/
def ex4of10 : List telemetry_sample :=
  [mkSample "2025-01-01T00:00:00Z" 90 5,
   mkSample "2025-01-01T00:01:00Z" 89 5,
   mkSample "2025-01-01T00:02:00Z" 88 5,
   mkSample "2025-01-01T00:03:00Z" 87 5] ++
    List.replicate 6 (mkSample "2025-01-01T00:04:00Z" 86 200)

/-- A well-formed telemetry log line (the JSON braces play no role in
the field extraction and are left out). -/
def goodLine : String :=
  "\"t\": \"2025-01-01T00:00:00Z\", \"pct\": 50.0, \"watts\": 5.000, \"cpu_load\": 0.10, \"ram_pct\": 40.0, \"temp_c\": 35.0, \"src\": \"upower\"\n"

/-- A line that is not a telemetry record at all. -/
def garbageLine : String := "garbage\n"

/-- A log whose lines are ten well-formed records and one garbage
line. -/
def exBadLog : List String :=
  List.replicate 10 goodLine ++ [garbageLine]

/-- Upower output during an ordinary discharge session: the state line
reads `discharging`. -/
def upowerDischargeOut : List String :=
  ["  percentage:          85%",
   "  energy-rate:         7.5 W",
   "  state:               discharging"]

/-- Upower output while charging. -/
def upowerChargingOut : List String :=
  ["  percentage:          85%",
   "  energy-rate:         7.5 W",
   "  state:               charging"]

/-- Acpiconf output during an ordinary discharge session. -/
def acpiDischargeOut : List String :=
  ["Remaining capacity:\t85%",
   "Present rate:\t8230 mW",
   "State:\tdischarging"]

/-- Acpiconf output while charging. -/
def acpiChargingOut : List String :=
  ["Remaining capacity:\t85%",
   "Present rate:\t8230 mW",
   "State:\tcharging"]

instance (l : String) : Decidable (upowerChargingLine l) := by
  unfold upowerChargingLine
  exact inferInstance

instance (l : String) : Decidable (acpiChargingLine l) := by
  unfold acpiChargingLine
  exact inferInstance

/-- A sysfs battery node whose status file reports `Charging`. -/
def chargingSysfs : sysfs_battery :=
  { status := some "Charging", capacity := some "85"
    power_now := some "7500000", current_now := none, voltage_now := none }

/-! ### Helper lemmas -/

/-- The validity filter of the code agrees pointwise with the
specification's validity predicate. -/
theorem sampleValid_eq_spec (s : telemetry_sample) :
    sampleValid s = decide (specValidSample s) := by
  simp only [sampleValid, specValidSample, Bool.decide_and, Bool.and_assoc]

/-- `validSamples` is the filter by the specification's predicate. -/
theorem validSamples_eq_spec (samples : List telemetry_sample) :
    validSamples samples = samples.filter (fun s => decide (specValidSample s)) := by
  unfold validSamples
  exact List.filter_congr (fun s _ => sampleValid_eq_spec s)

/-- Field characterization of a produced summary. -/
theorem analyze_samples_fields (samples : List telemetry_sample) (min_samples : ℤ)
    (su : run_summary) (h : analyze_samples samples min_samples = some su) :
    su.samples_total = (samples.length : ℤ) ∧
    su.samples_valid = ((validSamples samples).length : ℤ) ∧
    su.avg_watts =
      ((validSamples samples).map (fun s => s.watts)).sum /
        ((validSamples samples).length : ℚ) ∧
    su.duration_s = calculate_duration (validSamples samples) := by
  unfold analyze_samples at h
  split at h
  · exact absurd h (by simp)
  · dsimp only at h
    split at h
    · exact absurd h (by simp)
    · injection h with h2
      subst h2
      exact ⟨rfl, rfl, rfl, rfl⟩

/-- Once latched, the upower scan's charging flag stays set. -/
theorem upower_scan_charging_mono (ls : List String) (pct rate : ℚ) :
    (upower_scan ls pct rate true).2.2 = true := by
  induction ls generalizing pct rate with
  | nil => rfl
  | cons l ls ih =>
    unfold upower_scan
    split
    · exact ih _ _
    · split
      · exact ih _ _
      · split
        · exact ih _ _
        · exact ih _ _

/-- Any charging line among the scanned upower lines latches the
charging flag. -/
theorem upower_scan_charging_of_mem (ls : List String) (pct rate : ℚ) (cg : Bool)
    (h : ∃ l ∈ ls, upowerChargingLine l) :
    (upower_scan ls pct rate cg).2.2 = true := by
  induction ls generalizing pct rate cg with
  | nil => simp at h
  | cons l ls ih =>
    obtain ⟨x, hx, hcl⟩ := h
    rcases List.mem_cons.mp hx with heq | hmem
    · subst heq
      have h1 : ¬((strstrB x "percentage" && x.data.contains ':') = true) := by
        simp only [Bool.and_eq_true]
        exact hcl.2.2.1
      have h2 : ¬((strstrB x "energy-rate" && x.data.contains ':') = true) := by
        simp only [Bool.and_eq_true]
        exact hcl.2.2.2
      have h3 : (strstrB x "state" && strstrB x "charging") = true := by
        simp only [Bool.and_eq_true]
        exact ⟨hcl.1, hcl.2.1⟩
      unfold upower_scan
      rw [if_neg h1, if_neg h2, if_pos h3]
      exact upower_scan_charging_mono ls _ _
    · unfold upower_scan
      split
      · exact ih _ _ _ ⟨x, hmem, hcl⟩
      · split
        · exact ih _ _ _ ⟨x, hmem, hcl⟩
        · split
          · exact upower_scan_charging_mono ls _ _
          · exact ih _ _ _ ⟨x, hmem, hcl⟩

/-- The Linux reader returns `-1` when any trimmed upower line reports
a charging state. -/
theorem linux_charging_none (lines : List String) (bat0 bat1 : sysfs_battery)
    (h : ∃ l ∈ lines.map ltrim, upowerChargingLine l) :
    get_battery_info_linux (some lines) bat0 bat1 = none := by
  have hc := upower_scan_charging_of_mem (lines.map ltrim) (-1) (-1) false h
  unfold get_battery_info_linux
  dsimp only
  rw [if_pos hc]

/-- Any clean charging line aborts the acpiconf scan with `-1`. -/
theorem acpiconf_scan_none_of_mem (ls : List String) (pct rate : ℚ)
    (h : ∃ l ∈ ls, acpiChargingLine l) :
    acpiconf_scan ls pct rate = none := by
  induction ls generalizing pct rate with
  | nil => simp at h
  | cons l ls ih =>
    obtain ⟨x, hx, hcl⟩ := h
    rcases List.mem_cons.mp hx with heq | hmem
    · subst heq
      have h1 : ¬(strstrB x "Remaining capacity:" = true) := by
        simp [hcl.2.2.1]
      have h2 : ¬(strstrB x "Present rate:" = true) := by
        simp [hcl.2.2.2]
      have h3 : (strstrB x "State:" && strstrB x "charging") = true := by
        simp only [Bool.and_eq_true]
        exact ⟨hcl.1, hcl.2.1⟩
      unfold acpiconf_scan
      rw [if_neg h1, if_neg h2, if_pos h3]
    · unfold acpiconf_scan
      split
      · exact ih _ _ ⟨x, hmem, hcl⟩
      · split
        · exact ih _ _ ⟨x, hmem, hcl⟩
        · split
          · rfl
          · exact ih _ _ ⟨x, hmem, hcl⟩

/-- The FreeBSD reader returns `-1` when any acpiconf line cleanly
reports a charging state. -/
theorem freebsd_charging_none (lines : List String) (life rate : Option ℤ)
    (h : ∃ l ∈ lines, acpiChargingLine l) :
    get_battery_info_freebsd (some lines) life rate = none := by
  have hc := acpiconf_scan_none_of_mem lines (-1) (-1) h
  unfold get_battery_info_freebsd
  dsimp only
  rw [hc]

/-- The Linux sysfs fallback returns `-1` when the consulted status file
reports `Charging`. -/
theorem sysfs_charging_none (bat0 bat1 : sysfs_battery) (s : String)
    (hs : bat0.status = some s) (hc : strstrB s "Charging" = true) :
    sysfs_fallback bat0 bat1 = none := by
  have hst : sysfs_status_charging bat0 bat1 = true := by
    unfold sysfs_status_charging
    rw [hs]
    simp [hc]
  unfold sysfs_fallback
  rw [if_pos hst]

/-! ### Claims -/

/-- C1: for every run, the statistical core of `analyze_run` keeps
exactly the samples whose battery percentage lies in `[0, 100]` and
whose watts lies in `[0, 100)` (the specification's validity predicate),
counts all parsed samples in `samples_total`, counts exactly the kept
samples in `samples_valid`, and computes `avg_watts` as the arithmetic
mean of watts over the kept samples only. -/
theorem C1_analyze_run_filters_and_averages (samples : List telemetry_sample)
    (min_samples : ℤ) (su : run_summary)
    (h : analyze_samples samples min_samples = some su) :
    validSamples samples = samples.filter (fun s => decide (specValidSample s)) ∧
    su.samples_total = (samples.length : ℤ) ∧
    su.samples_valid =
      ((samples.filter (fun s => decide (specValidSample s))).length : ℤ) ∧
    su.avg_watts =
      ((samples.filter (fun s => decide (specValidSample s))).map
          (fun s => s.watts)).sum /
        ((samples.filter (fun s => decide (specValidSample s))).length : ℚ) := by
  obtain ⟨h1, h2, h3, h4⟩ := analyze_samples_fields samples min_samples su h
  rw [validSamples_eq_spec] at h2 h3
  exact ⟨validSamples_eq_spec samples, h1, h2, h3⟩

/-- C1 witness: the ten-sample run with watts `[5,5,5,5,5,5,5,5,5,200]`
and `min_valid_samples = 9`: the 200-W sample is excluded and
`avg_watts = 5`, `samples_valid = 9`, `samples_total = 10`. -/
theorem C1_witness :
    ∃ su, analyze_samples ex10 9 = some su ∧
      su.avg_watts = 5 ∧ su.samples_valid = 9 ∧ su.samples_total = 10 := by
  have h : analyze_samples ex10 9 = some ((analyze_samples ex10 9).getD default) := by
    with_unfolding_all decide
  obtain ⟨hf, h1, h2, h3⟩ :=
    C1_analyze_run_filters_and_averages ex10 9 _ h
  exact ⟨_, h, h3.trans (by with_unfolding_all decide),
    h2.trans (by with_unfolding_all decide),
    h1.trans (by with_unfolding_all decide)⟩

/-- C2: the percentile function computes index `p·(n−1)` over `n` sorted
values and linearly interpolates between the two bracketing order
statistics when that index is fractional; on `[1,2,3,4]` the median is
`2.5`, on `[1,2,3]` it is `2`, and on any single-element list it returns
that element. -/
theorem C2_percentile_interpolates :
    (∀ x p : ℚ, percentile [x] p = x) ∧
    percentile [1, 2, 3, 4] (1 / 2) = 5 / 2 ∧
    percentile [1, 2, 3] (1 / 2) = 2 ∧
    (∀ (l : List ℚ) (p : ℚ), 2 ≤ l.length →
      (⌊p * ((l.length : ℚ) - 1)⌋ = ⌈p * ((l.length : ℚ) - 1)⌉ →
        percentile l p = l.getD (⌊p * ((l.length : ℚ) - 1)⌋).toNat 0) ∧
      (⌊p * ((l.length : ℚ) - 1)⌋ ≠ ⌈p * ((l.length : ℚ) - 1)⌉ →
        percentile l p =
          l.getD (⌊p * ((l.length : ℚ) - 1)⌋).toNat 0 *
              (1 - (p * ((l.length : ℚ) - 1) - (⌊p * ((l.length : ℚ) - 1)⌋ : ℚ))) +
            l.getD (⌈p * ((l.length : ℚ) - 1)⌉).toNat 0 *
              (p * ((l.length : ℚ) - 1) - (⌊p * ((l.length : ℚ) - 1)⌋ : ℚ)))) := by
  refine ⟨?_, by with_unfolding_all decide, by with_unfolding_all decide, ?_⟩
  · intro x p
    rfl
  · intro l p hl
    have h0 : ¬(l.length = 0) := by omega
    have h1 : ¬(l.length = 1) := by omega
    unfold percentile
    rw [if_neg h0, if_neg h1]
    dsimp only
    constructor
    · intro heq
      rw [if_pos heq]
    · intro hne
      rw [if_neg hne]

/-- C2 witness: on `[10, 20]` with `p = 1/4` the index `1/4` is
fractional and the function interpolates to `12.5`. -/
theorem C2_witness :
    2 ≤ ([10, 20] : List ℚ).length ∧
    ⌊(1 / 4 : ℚ) * ((([10, 20] : List ℚ).length : ℚ) - 1)⌋ ≠
      ⌈(1 / 4 : ℚ) * ((([10, 20] : List ℚ).length : ℚ) - 1)⌉ ∧
    percentile [10, 20] (1 / 4) = 25 / 2 := by
  refine ⟨by decide, by with_unfolding_all decide, ?_⟩
  have h :=
    (C2_percentile_interpolates.2.2.2 [10, 20] (1 / 4) (by decide)).2
      (by with_unfolding_all decide)
  exact h.trans (by with_unfolding_all decide)

/-- C3: a run whose validity-filtered sample count is below
`min_samples` is rejected — `analyze_run`'s statistical core produces no
summary. -/
theorem C3_insufficient_valid_rejected (samples : List telemetry_sample)
    (min_samples : ℤ)
    (h : ((validSamples samples).length : ℤ) < min_samples) :
    analyze_samples samples min_samples = none := by
  unfold analyze_samples
  split
  · rfl
  · dsimp only
    rw [if_pos h]

/-- C3 witness: a run with 3 valid samples and `min_valid_samples = 10`
is rejected. -/
theorem C3_witness :
    ((validSamples ex3).length : ℤ) < 10 ∧ analyze_samples ex3 10 = none :=
  ⟨by with_unfolding_all decide,
    C3_insufficient_valid_rejected ex3 10 (by with_unfolding_all decide)⟩

/-- C4: contrary to the claim, a line never fails to parse:
`parse_json_line` turns the non-record line `garbage` into an all-zero
sample, that zero sample passes the validity filter, and in a log of ten
well-formed records plus the garbage line the analysis counts the
garbage line both in `samples_total` and in `samples_valid` (11 of each
— so the run even survives `min_samples = 11`, which the claim says it
must not). -/
theorem C4_malformed_line_counted_valid :
    parse_json_line garbageLine =
      { timestamp := "", percentage := 0, watts := 0, cpu_load := 0
        ram_pct := 0, temp_c := 0, source := "" } ∧
    sampleValid (parse_json_line garbageLine) = true ∧
    (analyze_run exBadLog 11).map
        (fun su => (su.samples_valid, su.samples_total)) = some (11, 11) :=
  ⟨by with_unfolding_all decide, by with_unfolding_all decide,
    by with_unfolding_all decide⟩

/-- C5 counterexample: a run of three valid samples whose timestamps
span 120 wall-clock seconds is summarized with `duration_s = 180`
(three samples times 60 s), not the 120-second timestamp span the claim
requires. -/
theorem C5_counterexample :
    (analyze_samples exTs 2).map (fun su => su.duration_s) = some 180 ∧
    specWallClockSpan exTs = 120 ∧
    (analyze_samples exTs 2).map (fun su => su.duration_s) ≠
      some (specWallClockSpan exTs) :=
  ⟨by with_unfolding_all decide, by with_unfolding_all decide,
    by with_unfolding_all decide⟩

/-- C5 amended: the duration of every produced summary is the valid
sample count times 60 seconds (0 below two valid samples), an estimate
from count and assumed cadence alone — the samples' timestamps are never
consulted. -/
theorem C5_duration_from_count (samples : List telemetry_sample)
    (min_samples : ℤ) (su : run_summary)
    (h : analyze_samples samples min_samples = some su) :
    su.duration_s =
      if (validSamples samples).length < 2 then 0
      else ((validSamples samples).length : ℚ) * 60 :=
  (analyze_samples_fields samples min_samples su h).2.2.2.trans rfl

/-- C5 witness: the 120-second-span run has duration `180`. -/
theorem C5_witness :
    ∃ su, analyze_samples exTs 2 = some su ∧ su.duration_s = 180 := by
  have h : analyze_samples exTs 2 = some ((analyze_samples exTs 2).getD default) := by
    with_unfolding_all decide
  exact ⟨_, h,
    (C5_duration_from_count exTs 2 _ h).trans (by with_unfolding_all decide)⟩

/-- C6 counterexample: on a tick where every battery reader fails (the
upower command failed and no sysfs battery node is readable) and no
prior sample exists, the sampler records nothing at all: the battery
resolver and `collect_telemetry` fail, the loop body appends no sample
to the log — in particular no zero-watts fallback sample — and only the
error counter moves. -/
theorem C6_counterexample :
    get_battery_info_linux none emptySysfs emptySysfs = none ∧
    collect_telemetry "2025-01-01T00:00:00Z"
        (get_battery_info_linux none emptySysfs emptySysfs)
        (some (1 / 10, 40, 35)) = none ∧
    (cmd_log_tick { written := [], sample_count := 0, error_count := 0 }
          "2025-01-01T00:00:00Z"
          (get_battery_info_linux none emptySysfs emptySysfs)
          (some (1 / 10, 40, 35))).1.written = [] ∧
    (cmd_log_tick { written := [], sample_count := 0, error_count := 0 }
          "2025-01-01T00:00:00Z"
          (get_battery_info_linux none emptySysfs emptySysfs)
          (some (1 / 10, 40, 35))).1.error_count = 1 :=
  ⟨by with_unfolding_all decide, by with_unfolding_all decide,
    by with_unfolding_all decide, by with_unfolding_all decide⟩

/-- C6 amended: when the battery resolver fails, the C sampler fails the
whole tick: no sample is produced or recorded (the other metrics are
discarded with it), the error counter is bumped, and the logging loop
breaks only when more than ten errors precede the first successful
sample. -/
theorem C6_failed_battery_aborts_tick (ts : String)
    (metrics : Option (ℚ × ℚ × ℚ)) (st : log_state) :
    collect_telemetry ts none metrics = none ∧
    (cmd_log_tick st ts none metrics).1.written = st.written ∧
    (cmd_log_tick st ts none metrics).1.sample_count = st.sample_count ∧
    (cmd_log_tick st ts none metrics).1.error_count = st.error_count + 1 ∧
    (cmd_log_tick st ts none metrics).2 =
      (decide (10 < st.error_count + 1) && decide (st.sample_count = 0)) :=
  ⟨rfl, rfl, rfl, rfl, rfl⟩

/-- C7 counterexample: with zero valid runs loaded, `cmd_report` prints
an error but exits `0`, not non-zero as the claim states; and the
acquisition start never fails either — `wait_for_battery_ready` returns
`0` even when `get_battery_info` failed. -/
theorem C7_counterexample :
    cmd_report_exit (some []) = 0 ∧ ¬(cmd_report_exit (some []) ≠ 0) ∧
    wait_for_battery_ready none = 0 ∧ ¬(wait_for_battery_ready none ≠ 0) :=
  ⟨rfl, fun hn => hn rfl, rfl, fun hn => hn rfl⟩

/-- C7 amended: the report command exits `0` for every successfully
loaded summary list, empty or not, and `1` only when loading itself
fails; the battery-readiness check before acquisition reports success
whatever the battery resolver returned, so acquisition never exits
non-zero for missing sources at start. -/
theorem C7_exit_codes (summaries : List run_summary)
    (battery : Option (ℚ × ℚ × String)) :
    cmd_report_exit (some summaries) = 0 ∧
    cmd_report_exit none = 1 ∧
    wait_for_battery_ready battery = 0 := by
  refine ⟨?_, rfl, ?_⟩
  · show (if summaries.length = 0 then (0 : ℤ) else 0) = 0
    split <;> rfl
  · cases battery <;> rfl

/-- C8: a source output in which the battery reports a charging state
makes the Source Reader return Unavailable rather than any sample
value: a trimmed upower line reaching the state-charging branch makes
the Linux reader return `-1`, an acpiconf line reaching the
`State:`-charging branch makes the FreeBSD reader return `-1`, and a
sysfs status file reporting `Charging` makes the sysfs fallback return
`-1`. -/
theorem C8_charging_state_unavailable :
    (∀ (lines : List String) (bat0 bat1 : sysfs_battery),
      (∃ l ∈ lines.map ltrim, upowerChargingLine l) →
      get_battery_info_linux (some lines) bat0 bat1 = none) ∧
    (∀ (lines : List String) (life rate : Option ℤ),
      (∃ l ∈ lines, acpiChargingLine l) →
      get_battery_info_freebsd (some lines) life rate = none) ∧
    (∀ (bat0 bat1 : sysfs_battery) (s : String),
      bat0.status = some s → strstrB s "Charging" = true →
      sysfs_fallback bat0 bat1 = none) :=
  ⟨linux_charging_none, freebsd_charging_none, sysfs_charging_none⟩

/-- C8 witness: concrete charging outputs for all three readers yield
Unavailable. -/
theorem C8_witness :
    (∃ l ∈ upowerChargingOut.map ltrim, upowerChargingLine l) ∧
    get_battery_info_linux (some upowerChargingOut) emptySysfs emptySysfs = none ∧
    (∃ l ∈ acpiChargingOut, acpiChargingLine l) ∧
    get_battery_info_freebsd (some acpiChargingOut) none none = none ∧
    chargingSysfs.status = some "Charging" ∧
    sysfs_fallback chargingSysfs emptySysfs = none := by
  refine ⟨by with_unfolding_all decide, ?_, by with_unfolding_all decide, ?_, rfl, ?_⟩
  · exact C8_charging_state_unavailable.1 upowerChargingOut emptySysfs emptySysfs
      (by with_unfolding_all decide)
  · exact C8_charging_state_unavailable.2.1 acpiChargingOut none none
      (by with_unfolding_all decide)
  · exact C8_charging_state_unavailable.2.2 chargingSysfs emptySysfs "Charging" rfl
      (by with_unfolding_all decide)

/-- C9: contrary to the claim (and to the repository's SPEC.md §13,
which requires marking runs with under 50% valid samples as low
confidence), no low-confidence marking exists anywhere: a run with 4
valid samples out of 10 (valid/total = 2/5 < 1/2) meeting the export
path's `min_samples = 1` is summarized as this completely ordinary
sixteen-field record — `run_summary_t` has no low-confidence field and
`analyze_run` computes no such flag. -/
theorem C9_no_low_confidence_flag :
    ((4 : ℚ) / 10 < 1 / 2) ∧
    analyze_samples ex4of10 1 =
      some { run_id := "", config := "", os := "", workload := ""
             duration_s := 240, samples_total := 10, samples_valid := 4
             avg_watts := 5, median_watts := 5, p95_watts := 5
             avg_cpu_load := 1 / 10, avg_ram_pct := 40, avg_temp_c := 35
             pct_drop := 3, start_pct := 90, end_pct := 87 } :=
  ⟨by with_unfolding_all decide, by with_unfolding_all decide⟩

/-- C10: because `strstr(line, "charging")` also matches the normal
discharge state `discharging`, both primary readers return `-1` on an
ordinary discharging battery — regardless of the fallback inputs, which
the early return skips — and consequently a successful battery reading
implies that the primary output contained no `charging`-matching state
line at all: during such a session battery data can only arrive via the
sysfs/sysctl fallback path, on ticks where the primary command itself
failed. -/
theorem C10_discharging_treated_as_charging :
    (∀ bat0 bat1 : sysfs_battery,
      get_battery_info_linux (some upowerDischargeOut) bat0 bat1 = none) ∧
    (∀ life rate : Option ℤ,
      get_battery_info_freebsd (some acpiDischargeOut) life rate = none) ∧
    (∀ (lines : List String) (bat0 bat1 : sysfs_battery) (v : ℚ × ℚ × String),
      get_battery_info_linux (some lines) bat0 bat1 = some v →
      ∀ l ∈ lines.map ltrim, ¬upowerChargingLine l) ∧
    (∀ (lines : List String) (life rate : Option ℤ) (v : ℚ × ℚ × String),
      get_battery_info_freebsd (some lines) life rate = some v →
      ∀ l ∈ lines, ¬acpiChargingLine l) := by
  refine ⟨?_, ?_, ?_, ?_⟩
  · intro bat0 bat1
    exact linux_charging_none _ _ _ (by with_unfolding_all decide)
  · intro life rate
    exact freebsd_charging_none _ _ _ (by with_unfolding_all decide)
  · intro lines bat0 bat1 v hv l hl hcl
    rw [linux_charging_none lines bat0 bat1 ⟨l, hl, hcl⟩] at hv
    exact Option.noConfusion hv
  · intro lines life rate v hv l hl hcl
    rw [freebsd_charging_none lines life rate ⟨l, hl, hcl⟩] at hv
    exact Option.noConfusion hv

/-- C10 witness: outputs with a percentage but no state line do produce
primary-tagged readings, and those readings certify the absence of any
charging-matching line. -/
theorem C10_witness :
    get_battery_info_linux (some ["  percentage:        85%"]) emptySysfs emptySysfs =
      some (85, 0, "upower") ∧
    (∀ l ∈ (["  percentage:        85%"] : List String).map ltrim,
      ¬upowerChargingLine l) ∧
    get_battery_info_freebsd (some ["Remaining capacity:\t85%"]) none none =
      some (85, 0, "acpiconf") ∧
    (∀ l ∈ (["Remaining capacity:\t85%"] : List String), ¬acpiChargingLine l) := by
  have h1 : get_battery_info_linux (some ["  percentage:        85%"])
      emptySysfs emptySysfs = some (85, 0, "upower") := by
    with_unfolding_all decide
  have h2 : get_battery_info_freebsd (some ["Remaining capacity:\t85%"])
      none none = some (85, 0, "acpiconf") := by
    with_unfolding_all decide
  exact ⟨h1, C10_discharging_treated_as_charging.2.2.1 _ _ _ _ h1,
    h2, C10_discharging_treated_as_charging.2.2.2 _ _ _ _ h2⟩

end Batlab
